import Mathlib

/-!
Verification of the pcan-basic-rs repository: a CAN transport over the
PCAN-Basic native driver (crates `pcan` and `pcan-basic`) and an STM32
bootloader firmware-update protocol driver built on top of it
(examples/stm32-fwupdate.rs in both crates).

The embedding models machine integers as `Nat` with explicit `% 2^w`
where overflow matters, fallible or panicking code as `Option`/`Except`,
and the native driver boundary as explicit state / call traces.
-/

/-! ## Vendor constants (from the PCAN-Basic header bindings) -/

def PCAN_MESSAGE_STANDARD : Nat := 0x00
def PCAN_MESSAGE_RTR : Nat := 0x01
def PCAN_MESSAGE_EXTENDED : Nat := 0x02

def PCAN_FILTER_CLOSE : Nat := 0
def PCAN_FILTER_OPEN : Nat := 1
def PCAN_FILTER_CUSTOM : Nat := 2

def PCAN_ERROR_OK : Nat := 0
def PCAN_ERROR_QRCVEMPTY : Nat := 0x20

/-! ## Wire frame representation

`TPCANMsg` from the native bindings: a 32-bit identifier, an 8-bit
message-type bit field, an 8-bit length field and a fixed 8-byte data
buffer.  Bytes are `Nat` values below 256; the buffer is a `List Nat`
whose length is 8 for every value produced by this library. -/

structure TPCANMsg where
  ID : Nat
  MSGTYPE : Nat
  LEN : Nat
  DATA : List Nat
  deriving Repr, DecidableEq

/-! ## Frame codec of the `pcan-basic` crate (src/pcan-basic/src/lib.rs)

`Frame::new_standard` / `Frame::new_extended` return `Err(())` when the
identifier exceeds the tag's range or the data is longer than 8 bytes;
modelled as `Option TPCANMsg` with `none` for the failure. -/

namespace PcanBasic

def new_standard (id : Nat) (data : List Nat) : Option TPCANMsg :=
  if 0x7FF < id ∨ 8 < data.length then
    none
  else
    some { ID := id
           MSGTYPE := PCAN_MESSAGE_STANDARD
           LEN := data.length
           DATA := data ++ List.replicate (8 - data.length) 0 }

def new_extended (id : Nat) (data : List Nat) : Option TPCANMsg :=
  if 0x1FFFFFFF < id ∨ 8 < data.length then
    none
  else
    some { ID := id
           MSGTYPE := PCAN_MESSAGE_EXTENDED
           LEN := data.length
           DATA := data ++ List.replicate (8 - data.length) 0 }

/-- `Frame::with_rtr(dlc)`: `assert!(dlc < 8)` (modelled as `none` on
assertion failure), then sets the RTR bit in `MSGTYPE` and overwrites
`LEN` with `dlc`.  The `DATA` buffer is left untouched. -/
def with_rtr (f : TPCANMsg) (dlc : Nat) : Option TPCANMsg :=
  if dlc < 8 then
    some { f with MSGTYPE := f.MSGTYPE ||| PCAN_MESSAGE_RTR, LEN := dlc }
  else
    none

def is_remote_frame (f : TPCANMsg) : Bool :=
  f.MSGTYPE &&& PCAN_MESSAGE_RTR ≠ 0

def frame_id (f : TPCANMsg) : Nat := f.ID

def dlc (f : TPCANMsg) : Nat := f.LEN

/-- `Frame::data`: the slice `&DATA[0..LEN]`.  Slicing a fixed 8-byte
array with an out-of-range upper bound panics in Rust; the panic is
modelled as `none`. -/
def data (f : TPCANMsg) : Option (List Nat) :=
  if f.LEN ≤ f.DATA.length then some (f.DATA.take f.LEN) else none

end PcanBasic

/-! ## Frame codec of the `pcan` crate (src/pcan/src/lib.rs)

`Frame::new_standard` / `Frame::new_extended` here only
`assert!(data.len() <= 8)`; the identifier is stored without any range
check.  The assertion failure (panic) is modelled as `none`. -/

namespace Pcan

def new_standard (id : Nat) (data : List Nat) : Option TPCANMsg :=
  if data.length ≤ 8 then
    some { ID := id
           MSGTYPE := PCAN_MESSAGE_STANDARD
           LEN := data.length
           DATA := data ++ List.replicate (8 - data.length) 0 }
  else
    none

def new_extended (id : Nat) (data : List Nat) : Option TPCANMsg :=
  if data.length ≤ 8 then
    some { ID := id
           MSGTYPE := PCAN_MESSAGE_EXTENDED
           LEN := data.length
           DATA := data ++ List.replicate (8 - data.length) 0 }
  else
    none

/-- `Frame::data` of the `pcan` crate: same slice `&DATA[0..LEN]`. -/
def data (f : TPCANMsg) : Option (List Nat) :=
  if f.LEN ≤ f.DATA.length then some (f.DATA.take f.LEN) else none

end Pcan

example : PcanBasic.new_standard 0x800 [] = none := by decide
example : (PcanBasic.new_standard 0x7FF [1, 2]).isSome = true := by decide
example : Pcan.new_standard 0x800 [] =
    some ⟨0x800, 0, 0, [0, 0, 0, 0, 0, 0, 0, 0]⟩ := by decide
example : PcanBasic.data ⟨1, 0, 9, [0, 0, 0, 0, 0, 0, 0, 0]⟩ = none := by decide

/-! ## Bootloader protocol driver (examples/stm32-fwupdate.rs)

The driver is generic over a transmit/receive capability; its observable
behaviour is the sequence of frames sent and acknowledgements awaited.
`Event.send id data` models `self.send(id, data)` and
`Event.awaitAck id` models `self.receive_ack(id)`. -/

inductive Event where
  | send (id : Nat) (data : List Nat)
  | awaitAck (id : Nat)
  deriving Repr, DecidableEq

namespace Bootloader

/-- Fixed set of protocol identifiers filtered at construction:
`let rx_ids = [0x79, 0x43, 0x31, 0x21];`. -/
def rx_ids : List Nat := [0x79, 0x43, 0x31, 0x21]

/-- Filter setup in `Bootloader::new`: either one exact filter per
identifier, or a single masked filter, or a panic. -/
inductive FilterAction where
  | exactList (ids : List Nat)
  | masked (id : Nat) (mask : Nat)
  | insufficient
  deriving Repr, DecidableEq

/-- Combined masked filter computed by `Bootloader::new`:
`let mut id = 0; let mut mask = 0;
 for &rx_id in &rx_ids { id &= rx_id; mask |= rx_id; }`. -/
def combined (ids : List Nat) : Nat × Nat :=
  ids.foldl (fun p rx_id => (p.1 &&& rx_id, p.2 ||| rx_id)) (0, 0)

/-- Filter negotiation of `Bootloader::new`: exact list when enough
discrete slots are reported, else a single combined masked filter when a
mask is supported, else panic (`insufficient`). -/
def negotiate (num_filters : Nat) (has_mask : Bool) (ids : List Nat) :
    FilterAction :=
  if ids.length ≤ num_filters then
    .exactList ids
  else if has_mask then
    .masked (combined ids).1 (combined ids).2
  else
    .insufficient

/-- Recursion worker for `chunks8`; the fuel argument only makes the
recursion structural and is always sufficient when it starts at the
length of the list (every step consumes at least one element). -/
def chunks8Go : Nat → List Nat → List (List Nat)
  | _, [] => []
  | 0, _ => []
  | fuel + 1, x :: xs => (x :: xs.take 7) :: chunks8Go fuel (xs.drop 7)

/-- Splits a block into the successive `chunks(8)` pieces, exactly as
`buf[..num_bytes].chunks(8)` does. -/
def chunks8 (l : List Nat) : List (List Nat) :=
  chunks8Go l.length l

/-- Big-endian byte extraction used for the 5-byte write header:
`[(addr >> 24) as u8, (addr >> 16) as u8, (addr >> 8) as u8, addr as u8]`
on a `u32` address. -/
def beBytes (a : Nat) : List Nat :=
  [(a >>> 24) % 256, (a >>> 16) % 256, (a >>> 8) % 256, a % 256]

/-- Loop body of `Bootloader::write`.  The input byte source is modelled
as the list of successive non-erroring `read` results (each at most the
256-byte buffer); an exhausted source reads zero bytes, so a missing or
empty entry breaks the loop.  `i` is the loop counter stepping by
`BOOTLOADER_BLOCK_LEN = 256`; the header address is the `u32`
`addr + i`. -/
def writeLoop (addr : Nat) (i : Nat) (reads : List (List Nat)) :
    List Event :=
  match reads with
  | [] => []
  | chunk :: rest =>
    if chunk.length = 0 then
      []
    else
      let a := (addr + i) % 2 ^ 32
      let msg_start := beBytes a ++ [(chunk.length - 1) % 256]
      Event.send 0x31 msg_start :: Event.awaitAck 0x31 ::
        ((chunks8 chunk).map
            (fun msg_data => [Event.send 0x04 msg_data, Event.awaitAck 0x31])).flatten ++
        (Event.awaitAck 0x31 :: writeLoop addr (i + 256) rest)

/-- `Bootloader::write(addr, data)`: the emitted event trace. -/
def write (addr : Nat) (reads : List (List Nat)) : List Event :=
  writeLoop addr 0 reads

/-- `Bootloader::receive_ack(id)` applied to the received frame:
`Ok(())` iff `msg.id() == id && msg.data() == &[0x79]`, otherwise an
error carrying the offending frame.  The `msg.data()` accessor itself
can panic (outer `none`, see `PcanBasic.data`). -/
def receive_ack (id : Nat) (msg : TPCANMsg) : Option (Except TPCANMsg Unit) :=
  (PcanBasic.data msg).map
    (fun d => if msg.ID = id ∧ d = [0x79] then .ok () else .error msg)

end Bootloader

example : Bootloader.combined Bootloader.rx_ids = (0, 0x7B) := by decide
example : Bootloader.chunks8 [1, 2, 3, 4, 5, 6, 7, 8, 9] =
    [[1, 2, 3, 4, 5, 6, 7, 8], [9]] := by decide
example : Bootloader.write 0 [[1, 2]] =
    [.send 0x31 [0, 0, 0, 0, 1], .awaitAck 0x31,
     .send 0x04 [1, 2], .awaitAck 0x31, .awaitAck 0x31] := by decide

/-! ## Channel transport: filter installation (`Rx::add_filter`)

Both crates implement `add_filter` identically: read back the
`PCAN_MESSAGE_FILTER` device parameter; if it reports
`PCAN_FILTER_CUSTOM` return an error ("Cannot configure more than one
filter") without writing anything; otherwise write either
`PCAN_FILTER_OPEN` (accept-all) or the `[mask, id]` acceptance filter
for the 11-bit or 29-bit parameter. -/

namespace Channel

structure Filter where
  accept_all : Bool
  is_extended : Bool
  id : Nat
  mask : Nat
  deriving Repr, DecidableEq

/-- Device-side filter state visible through `CAN_GetValue` /
`CAN_SetValue`: the `PCAN_MESSAGE_FILTER` parameter and the last written
acceptance registers. -/
structure ChannelState where
  message_filter : Nat
  acceptance_11bit : Option (Nat × Nat)
  acceptance_29bit : Option (Nat × Nat)
  deriving Repr, DecidableEq

inductive AddFilterResult where
  | ok
  | alreadyConfigured
  deriving Repr, DecidableEq

/-- `Rx::add_filter` as a transition on the device filter state; the
returned state is unchanged on the error path. -/
def add_filter (s : ChannelState) (f : Filter) :
    AddFilterResult × ChannelState :=
  if s.message_filter = PCAN_FILTER_CUSTOM then
    (.alreadyConfigured, s)
  else if f.accept_all then
    (.ok, { s with message_filter := PCAN_FILTER_OPEN })
  else if f.is_extended then
    (.ok, { s with acceptance_29bit := some (f.mask, f.id) })
  else
    (.ok, { s with acceptance_11bit := some (f.mask, f.id) })

/-! ## Channel transport: the stale-frame drain loop in `Interface::split`

`split` clears the filters and then loops on the non-blocking
`rx.receive()` until it observes `WouldBlock`:

  loop { if let Err(nb::Error::WouldBlock) = rx.receive() { break; } }

Every other outcome — a received frame or a transport error — matches
nothing and the loop continues; the error value is dropped.  The loop is
modelled on the (finite prefix of the) sequence of receive outcomes;
`drainLoop` returns `true` when the loop has broken out within that
prefix and `false` when it is still running after consuming it. -/

inductive RecvResult where
  | ok (frame : TPCANMsg)
  | wouldBlock
  | err (status : Nat)
  deriving Repr, DecidableEq

def drainLoop : List RecvResult → Bool
  | [] => false
  | .wouldBlock :: _ => true
  | .ok _ :: rest => drainLoop rest
  | .err _ :: rest => drainLoop rest

/-! ## Channel lifecycle: `Interface::init` and `Drop`

`init` calls `CAN_Initialize`; on a bad status it returns the error.
It then sets `PCAN_ALLOW_STATUS_FRAMES`, creates the Win32 event object
and, when `CreateEventA` returns null, returns an error — without any
`CAN_Uninitialize`, although the native channel was already
initialized.  On success it binds the receive event and returns the
interface, whose `Drop` implementation calls `CAN_Uninitialize`
exactly once.  The lifecycle is modelled as the trace of native calls
made for a given environment (driver status and event-creation
outcome). -/

inductive NativeCall where
  | canInit (status : Nat)
  | canSetValue (param : Nat)
  | createEvent (ok : Bool)
  | canUninit
  deriving Repr, DecidableEq

def PCAN_ALLOW_STATUS_FRAMES : Nat := 0x20
def PCAN_RECEIVE_EVENT : Nat := 0x19

/-- Environment of one `Interface::init` run: the status returned by
`CAN_Initialize` and whether `CreateEventA` returns a non-null handle. -/
structure InitEnv where
  init_status : Nat
  event_ok : Bool
  deriving Repr, DecidableEq

/-- `Interface::init`: the native-call trace and whether an `Interface`
value was constructed (`true` = `Ok(Self { .. })`). -/
def interfaceInit (env : InitEnv) : List NativeCall × Bool :=
  if env.init_status ≠ PCAN_ERROR_OK then
    ([.canInit env.init_status], false)
  else if ¬env.event_ok then
    ([.canInit env.init_status, .canSetValue PCAN_ALLOW_STATUS_FRAMES,
      .createEvent false], false)
  else
    ([.canInit env.init_status, .canSetValue PCAN_ALLOW_STATUS_FRAMES,
      .createEvent true, .canSetValue PCAN_RECEIVE_EVENT], true)

/-- Full lifecycle: `Drop::drop` (which calls `CAN_Uninitialize`) runs
iff an `Interface` value was constructed, i.e. only when `init`
returned `Ok`. -/
def interfaceLifecycle (env : InitEnv) : List NativeCall :=
  let (trace, constructed) := interfaceInit env
  trace ++ if constructed then [.canUninit] else []

end Channel

/-! ## Specification-side write traces

Two definitions written from the specification's words (for comparison
with `Bootloader.write`, which is transcribed from the source):

* `writeSpecClaimed` follows the claim as stated: per non-empty block,
  one 5-byte header (big-endian `start_address + cumulative offset`,
  then `block_length - 1`) on 0x31, one ack, then the block's data
  frames on 0x04 with no ack between them, then exactly one more ack.
* `writeSpecPerFrameAck` follows the amended wording: identical except
  that one ack is awaited after every data frame (before the final
  ack), and block `j` is addressed at `start_address + 256 * j`. -/

namespace Bootloader

/-- Claim-side trace: block at cumulative byte offset `off`, data frames
not interleaved with acks. -/
def writeSpecClaimedGo (start : Nat) (off : Nat) :
    List (List Nat) → List Event
  | [] => []
  | block :: rest =>
    if block.length = 0 then
      []
    else
      [Event.send 0x31
          (beBytes ((start + off) % 2 ^ 32) ++ [(block.length - 1) % 256]),
       Event.awaitAck 0x31] ++
      (chunks8 block).map (fun c => Event.send 0x04 c) ++
      [Event.awaitAck 0x31] ++
      writeSpecClaimedGo start (off + block.length) rest

def writeSpecClaimed (start : Nat) (reads : List (List Nat)) : List Event :=
  writeSpecClaimedGo start 0 reads

/-- Amended-side trace of one block at address `a`: header, one ack, the
data frames each followed by one ack, one further ack. -/
def specBlockPerFrameAck (a : Nat) (block : List Nat) : List Event :=
  [Event.send 0x31 (beBytes a ++ [(block.length - 1) % 256]),
   Event.awaitAck 0x31] ++
  ((chunks8 block).map
      (fun c => [Event.send 0x04 c, Event.awaitAck 0x31])).flatten ++
  [Event.awaitAck 0x31]

/-- Amended-side trace: block number `j` is written at the `u32` address
`start + 256 * j`; iteration stops at the first empty read. -/
def writeSpecPerFrameAckGo (start : Nat) (j : Nat) :
    List (List Nat) → List Event
  | [] => []
  | block :: rest =>
    if block.length = 0 then
      []
    else
      specBlockPerFrameAck ((start + 256 * j) % 2 ^ 32) block ++
      writeSpecPerFrameAckGo start (j + 1) rest

def writeSpecPerFrameAck (start : Nat) (reads : List (List Nat)) :
    List Event :=
  writeSpecPerFrameAckGo start 0 reads

end Bootloader

example : Bootloader.writeSpecClaimed 0 [[1, 2]] =
    [.send 0x31 [0, 0, 0, 0, 1], .awaitAck 0x31,
     .send 0x04 [1, 2], .awaitAck 0x31] := by decide
example : Bootloader.writeSpecPerFrameAck 0 [[1, 2]] =
    Bootloader.write 0 [[1, 2]] := by decide

/-! ## Event classifiers (used to count headers, data frames and acks) -/

def Event.isWriteHeader : Event → Bool
  | .send i _ => i = 0x31
  | _ => false

def Event.isDataFrame : Event → Bool
  | .send i _ => i = 0x04
  | _ => false

def Event.isAckAwait : Event → Bool
  | .awaitAck _ => true
  | _ => false

/-! ## Helper lemmas -/

theorem take_len_append (d r : List Nat) : (d ++ r).take d.length = d := by
  induction d with
  | nil => rfl
  | cons x xs ih => simp [ih]

theorem or_one_and_one_ne_zero (m : Nat) : (m ||| 1) &&& 1 ≠ 0 := by
  intro h0
  have hb := congrArg (fun n => n.testBit 0) h0
  simp [Nat.testBit_and, Nat.testBit_or] at hb

/-! ## Claim theorems -/

/-- C8: for every valid standard identifier (at most 0x7FF), every valid
extended identifier (at most 0x1FFFFFFF) and every data slice of length
at most 8, the frame built by `new_standard` / `new_extended` decodes
back to the original identifier and data through the `id()` and `data()`
accessors. -/
theorem frame_roundtrip (idS idE : Nat) (d : List Nat)
    (hS : idS ≤ 0x7FF) (hE : idE ≤ 0x1FFFFFFF) (hd : d.length ≤ 8) :
    (∃ f, PcanBasic.new_standard idS d = some f ∧
       PcanBasic.frame_id f = idS ∧ PcanBasic.data f = some d) ∧
    (∃ f, PcanBasic.new_extended idE d = some f ∧
       PcanBasic.frame_id f = idE ∧ PcanBasic.data f = some d) := by
  have hlen : d.length ≤ (d ++ List.replicate (8 - d.length) 0).length := by
    simp
  have htake : (d ++ List.replicate (8 - d.length) 0).take d.length = d :=
    take_len_append _ _
  refine ⟨⟨⟨idS, PCAN_MESSAGE_STANDARD, d.length,
            d ++ List.replicate (8 - d.length) 0⟩, ?_, rfl, ?_⟩,
          ⟨⟨idE, PCAN_MESSAGE_EXTENDED, d.length,
            d ++ List.replicate (8 - d.length) 0⟩, ?_, rfl, ?_⟩⟩
  · rw [PcanBasic.new_standard, if_neg (by omega)]
  · simp [PcanBasic.data, hlen, htake]
  · rw [PcanBasic.new_extended, if_neg (by omega)]
  · simp [PcanBasic.data, hlen, htake]

theorem frame_roundtrip_witness :
    (0x123 ≤ 0x7FF ∧ 0x1234567 ≤ 0x1FFFFFFF ∧
      ([1, 2, 3] : List Nat).length ≤ 8) ∧
    (∃ f, PcanBasic.new_standard 0x123 [1, 2, 3] = some f ∧
       PcanBasic.frame_id f = 0x123 ∧ PcanBasic.data f = some [1, 2, 3]) ∧
    (∃ f, PcanBasic.new_extended 0x1234567 [1, 2, 3] = some f ∧
       PcanBasic.frame_id f = 0x1234567 ∧
       PcanBasic.data f = some [1, 2, 3]) :=
  ⟨⟨by decide, by decide, by decide⟩,
   frame_roundtrip 0x123 0x1234567 [1, 2, 3] (by decide) (by decide) (by decide)⟩

/-- C3 counterexample: in the `pcan` crate, `Frame::new_standard` with
the out-of-range identifier 0x800 succeeds (no identifier range check),
although the claim demands that construction fail whenever the
identifier exceeds its tag's valid range. -/
theorem encode_id_range_counterexample :
    (0x7FF : Nat) < 0x800 ∧
    Pcan.new_standard 0x800 [] =
      some ⟨0x800, PCAN_MESSAGE_STANDARD, 0, [0, 0, 0, 0, 0, 0, 0, 0]⟩ ∧
    Pcan.new_extended 0x20000000 [] =
      some ⟨0x20000000, PCAN_MESSAGE_EXTENDED, 0, [0, 0, 0, 0, 0, 0, 0, 0]⟩ := by
  decide

/-- C3 amended: in the `pcan-basic` crate frame construction fails
exactly when the identifier exceeds its tag's valid range (0x7FF
standard, 0x1FFFFFFF extended) or the data is longer than 8 bytes, and
succeeds otherwise; in the `pcan` crate the constructors check only the
data length — they fail exactly when the data is longer than 8 bytes
and accept any identifier value. -/
theorem encode_validity (id : Nat) (d : List Nat) :
    ((PcanBasic.new_standard id d).isSome = true ↔
       id ≤ 0x7FF ∧ d.length ≤ 8) ∧
    ((PcanBasic.new_extended id d).isSome = true ↔
       id ≤ 0x1FFFFFFF ∧ d.length ≤ 8) ∧
    ((Pcan.new_standard id d).isSome = true ↔ d.length ≤ 8) ∧
    ((Pcan.new_extended id d).isSome = true ↔ d.length ≤ 8) := by
  refine ⟨?_, ?_, ?_, ?_⟩ <;>
    · first
      | (rw [PcanBasic.new_standard]; split <;> simp_all <;> omega)
      | (rw [PcanBasic.new_extended]; split <;> simp_all <;> omega)
      | (rw [Pcan.new_standard]; split <;> simp_all)
      | (rw [Pcan.new_extended]; split <;> simp_all)

/-- C10: `Frame::data` slices `&DATA[0..LEN]` out of the fixed 8-byte
buffer; it is total only when the stored wire length `LEN` is at most 8.
For `LEN ≤ 8` it returns the first `LEN` buffer bytes; for `LEN > 8`
(a value the hardware-produced wire representation can carry) the slice
is out of bounds and the accessor panics, in both crates. -/
theorem frame_data_domain (f : TPCANMsg) (h8 : f.DATA.length = 8) :
    (f.LEN ≤ 8 →
       PcanBasic.data f = some (f.DATA.take f.LEN) ∧
       Pcan.data f = some (f.DATA.take f.LEN)) ∧
    (8 < f.LEN → PcanBasic.data f = none ∧ Pcan.data f = none) := by
  constructor
  · intro hle
    exact ⟨by rw [PcanBasic.data, if_pos (by omega)],
           by rw [Pcan.data, if_pos (by omega)]⟩
  · intro hgt
    exact ⟨by rw [PcanBasic.data, if_neg (by omega)],
           by rw [Pcan.data, if_neg (by omega)]⟩

theorem frame_data_domain_witness :
    (([0, 0, 0, 0, 0, 0, 0, 0] : List Nat).length = 8) ∧
    PcanBasic.data ⟨0x31, 0, 9, [0, 0, 0, 0, 0, 0, 0, 0]⟩ = none ∧
    Pcan.data ⟨0x31, 0, 9, [0, 0, 0, 0, 0, 0, 0, 0]⟩ = none :=
  ⟨by decide,
   (frame_data_domain ⟨0x31, 0, 9, [0, 0, 0, 0, 0, 0, 0, 0]⟩ (by decide)).2
     (by decide)⟩

/-- C4 counterexample: `with_rtr` does not clear the payload.  Starting
from the frame built by `new_standard(1, [0xAA, 0xBB])`, marking it
remote with dlc 2 keeps `LEN = 2` and the buffer bytes, so reading the
data of the resulting frame yields `[0xAA, 0xBB]`, not an empty payload
as the claim states. -/
theorem with_rtr_payload_counterexample :
    PcanBasic.new_standard 1 [0xAA, 0xBB] =
      some ⟨1, PCAN_MESSAGE_STANDARD, 2, [0xAA, 0xBB, 0, 0, 0, 0, 0, 0]⟩ ∧
    PcanBasic.with_rtr ⟨1, PCAN_MESSAGE_STANDARD, 2,
        [0xAA, 0xBB, 0, 0, 0, 0, 0, 0]⟩ 2 =
      some ⟨1, PCAN_MESSAGE_RTR, 2, [0xAA, 0xBB, 0, 0, 0, 0, 0, 0]⟩ ∧
    PcanBasic.data ⟨1, PCAN_MESSAGE_RTR, 2,
        [0xAA, 0xBB, 0, 0, 0, 0, 0, 0]⟩ = some [0xAA, 0xBB] ∧
    some [0xAA, 0xBB] ≠ some ([] : List Nat) := by
  decide

/-- C4 amended: the mark-remote transform fails (assertion) if
`dlc >= 8`; otherwise it produces a frame with the remote flag set and
the `LEN` field set to `dlc`, leaving the payload buffer untouched, so
reading the data of the resulting frame yields the first `dlc` bytes of
the original buffer (an empty payload only when `dlc = 0`). -/
theorem with_rtr_amended (f : TPCANMsg) (dlc : Nat)
    (h8 : f.DATA.length = 8) :
    (8 ≤ dlc → PcanBasic.with_rtr f dlc = none) ∧
    (dlc < 8 →
      ∃ g, PcanBasic.with_rtr f dlc = some g ∧
        PcanBasic.is_remote_frame g = true ∧
        g.LEN = dlc ∧ g.DATA = f.DATA ∧
        PcanBasic.data g = some (f.DATA.take dlc)) := by
  constructor
  · intro hge
    rw [PcanBasic.with_rtr, if_neg (by omega)]
  · intro hlt
    refine ⟨⟨f.ID, f.MSGTYPE ||| PCAN_MESSAGE_RTR, dlc, f.DATA⟩, ?_, ?_, rfl,
            rfl, ?_⟩
    · rw [PcanBasic.with_rtr, if_pos hlt]
    · simpa [PcanBasic.is_remote_frame, PCAN_MESSAGE_RTR] using
        or_one_and_one_ne_zero f.MSGTYPE
    · rw [PcanBasic.data]
      have hc : (⟨f.ID, f.MSGTYPE ||| PCAN_MESSAGE_RTR, dlc,
          f.DATA⟩ : TPCANMsg).LEN ≤
          (⟨f.ID, f.MSGTYPE ||| PCAN_MESSAGE_RTR, dlc,
            f.DATA⟩ : TPCANMsg).DATA.length := by
        show dlc ≤ f.DATA.length
        omega
      rw [if_pos hc]

theorem with_rtr_amended_witness :
    (([0xAA, 0xBB, 0, 0, 0, 0, 0, 0] : List Nat).length = 8 ∧ 8 ≤ 9) ∧
    PcanBasic.with_rtr ⟨1, PCAN_MESSAGE_STANDARD, 2,
        [0xAA, 0xBB, 0, 0, 0, 0, 0, 0]⟩ 9 = none :=
  ⟨⟨by decide, by decide⟩,
   (with_rtr_amended ⟨1, PCAN_MESSAGE_STANDARD, 2,
        [0xAA, 0xBB, 0, 0, 0, 0, 0, 0]⟩ 9 (by decide)).1 (by decide)⟩

/-- C2 counterexample: the combined filter folds the bitwise AND
starting from an accumulator of 0, so for the target set
{0x79, 0x43, 0x31, 0x21} the computed base is 0x00, while the bitwise
AND of the identifiers (and the claimed base) is 0x01.  The mask (OR of
the identifiers, 0x7B) is as claimed. -/
theorem combined_filter_counterexample :
    Bootloader.combined Bootloader.rx_ids = (0x00, 0x7B) ∧
    (0x79 &&& 0x43 &&& 0x31 &&& 0x21 : Nat) = 0x01 ∧
    (0x00 : Nat) ≠ 0x01 := by
  decide

/-- C2 amended: when fewer discrete filter slots than target
identifiers are reported but masked filtering is supported, the
negotiation installs a single combined filter whose mask is the bitwise
OR of all target identifiers and whose base is the left fold of bitwise
AND over them started at 0 — hence always 0; for the target set
{0x79, 0x43, 0x31, 0x21} this yields mask 0x7B and base 0x00. -/
theorem negotiate_masked (num_filters : Nat) (h : num_filters < 4) :
    Bootloader.negotiate num_filters true Bootloader.rx_ids =
      .masked 0x00 0x7B := by
  rw [Bootloader.negotiate,
      if_neg (by simp [Bootloader.rx_ids]; omega), if_pos rfl]
  decide

theorem negotiate_masked_witness :
    1 < 4 ∧
    Bootloader.negotiate 1 true Bootloader.rx_ids =
      .masked 0x00 0x7B :=
  ⟨by decide, negotiate_masked 1 (by decide)⟩

/-- C5: `Rx::add_filter` first reads back the device filter state; when
it already reports `PCAN_FILTER_CUSTOM` the call returns the
filter-already-configured error and leaves the device state unchanged;
when no custom filter is active the call succeeds (for any filter
argument). -/
theorem add_filter_exclusive (s : Channel.ChannelState)
    (f : Channel.Filter) :
    (s.message_filter = PCAN_FILTER_CUSTOM →
       Channel.add_filter s f = (.alreadyConfigured, s)) ∧
    (s.message_filter ≠ PCAN_FILTER_CUSTOM →
       (Channel.add_filter s f).1 = .ok) := by
  constructor
  · intro h
    rw [Channel.add_filter, if_pos h]
  · intro h
    rw [Channel.add_filter, if_neg h]
    by_cases ha : f.accept_all = true
    · rw [if_pos ha]
    · rw [if_neg ha]
      by_cases he : f.is_extended = true
      · rw [if_pos he]
      · rw [if_neg he]

theorem add_filter_exclusive_witness :
    ((⟨PCAN_FILTER_CUSTOM, none, none⟩ :
        Channel.ChannelState).message_filter = PCAN_FILTER_CUSTOM ∧
      (⟨PCAN_FILTER_CLOSE, none, none⟩ :
        Channel.ChannelState).message_filter ≠ PCAN_FILTER_CUSTOM) ∧
    Channel.add_filter ⟨PCAN_FILTER_CUSTOM, none, none⟩
        ⟨false, false, 0x79, 0x7FF⟩ =
      (.alreadyConfigured, ⟨PCAN_FILTER_CUSTOM, none, none⟩) ∧
    (Channel.add_filter ⟨PCAN_FILTER_CLOSE, none, none⟩
        ⟨false, false, 0x79, 0x7FF⟩).1 = .ok :=
  ⟨⟨by decide, by decide⟩,
   (add_filter_exclusive ⟨PCAN_FILTER_CUSTOM, none, none⟩
       ⟨false, false, 0x79, 0x7FF⟩).1 (by decide),
   (add_filter_exclusive ⟨PCAN_FILTER_CLOSE, none, none⟩
       ⟨false, false, 0x79, 0x7FF⟩).2 (by decide)⟩

/-- C6: the acknowledgement check of `Bootloader::receive_ack(x)`
succeeds on a received frame iff its identifier equals `x` and its
payload (the first `LEN` buffer bytes) is exactly the single byte 0x79;
any other content yields the error carrying the offending frame.  The
function inspects exactly one received frame — no retry happens. -/
theorem receive_ack_iff (x : Nat) (msg : TPCANMsg)
    (h : msg.LEN ≤ msg.DATA.length) :
    (Bootloader.receive_ack x msg = some (.ok ()) ↔
       msg.ID = x ∧ msg.DATA.take msg.LEN = [0x79]) ∧
    (¬(msg.ID = x ∧ msg.DATA.take msg.LEN = [0x79]) →
       Bootloader.receive_ack x msg = some (.error msg)) := by
  rw [Bootloader.receive_ack, PcanBasic.data, if_pos h, Option.map_some']
  constructor
  · by_cases hc : msg.ID = x ∧ msg.DATA.take msg.LEN = [0x79]
    · simp [hc]
    · rw [if_neg hc]
      simp [hc]
  · intro hc
    rw [if_neg hc]

theorem receive_ack_iff_witness :
    ((⟨0x79, 0, 1, [0x79, 0, 0, 0, 0, 0, 0, 0]⟩ : TPCANMsg).LEN ≤
        (⟨0x79, 0, 1, [0x79, 0, 0, 0, 0, 0, 0, 0]⟩ : TPCANMsg).DATA.length) ∧
    Bootloader.receive_ack 0x79
        ⟨0x79, 0, 1, [0x79, 0, 0, 0, 0, 0, 0, 0]⟩ = some (.ok ()) ∧
    Bootloader.receive_ack 0x31
        ⟨0x79, 0, 1, [0x79, 0, 0, 0, 0, 0, 0, 0]⟩ =
      some (.error ⟨0x79, 0, 1, [0x79, 0, 0, 0, 0, 0, 0, 0]⟩) :=
  ⟨by decide,
   (receive_ack_iff 0x79 ⟨0x79, 0, 1, [0x79, 0, 0, 0, 0, 0, 0, 0]⟩
       (by decide)).1.mpr ⟨rfl, by decide⟩,
   (receive_ack_iff 0x31 ⟨0x79, 0, 1, [0x79, 0, 0, 0, 0, 0, 0, 0]⟩
       (by decide)).2 (by decide)⟩

/-- C7: evaluation of the channel-lifecycle model at the failing
environment.  When `CAN_Initialize` succeeds but `CreateEventA` then
returns a null handle, `Interface::init` returns an error before
constructing the `Interface` value, so `Drop` never runs and
`CAN_Uninitialize` is absent from the whole lifecycle trace — the
already-initialized native channel is leaked on this error exit path.
On the success path the release call appears exactly once. -/
theorem init_event_failure_leaks_channel :
    Channel.interfaceLifecycle ⟨PCAN_ERROR_OK, false⟩ =
      [.canInit PCAN_ERROR_OK, .canSetValue Channel.PCAN_ALLOW_STATUS_FRAMES,
       .createEvent false] ∧
    Channel.NativeCall.canUninit ∉
      Channel.interfaceLifecycle ⟨PCAN_ERROR_OK, false⟩ ∧
    (Channel.interfaceLifecycle ⟨PCAN_ERROR_OK, true⟩).count
      Channel.NativeCall.canUninit = 1 ∧
    (Channel.interfaceLifecycle ⟨1, false⟩).count
      Channel.NativeCall.canUninit = 0 := by
  decide

/-- C9: the stale-frame drain loop of `Interface::split` breaks out of
its finite prefix of receive outcomes iff that prefix contains a
`WouldBlock`; a successfully received frame and a non-`WouldBlock`
transport error both continue the loop unchanged (the error value is
discarded, not returned).  Consequently a receive sequence that never
yields `WouldBlock` leaves the loop running after every finite prefix:
`split` does not terminate. -/
theorem split_drain_terminates_iff (rs : List Channel.RecvResult)
    (f : TPCANMsg) (e : Nat) :
    (Channel.drainLoop rs = true ↔ Channel.RecvResult.wouldBlock ∈ rs) ∧
    Channel.drainLoop (.ok f :: rs) = Channel.drainLoop rs ∧
    Channel.drainLoop (.err e :: rs) = Channel.drainLoop rs := by
  refine ⟨?_, rfl, rfl⟩
  induction rs with
  | nil => simp [Channel.drainLoop]
  | cons r rest ih =>
    cases r <;> simp [Channel.drainLoop, ih]

theorem writeLoop_eq_specGo (addr : Nat) (reads : List (List Nat)) :
    ∀ j, Bootloader.writeLoop addr (256 * j) reads =
      Bootloader.writeSpecPerFrameAckGo addr j reads := by
  induction reads with
  | nil => intro j; rfl
  | cons chunk rest ih =>
    intro j
    simp only [Bootloader.writeLoop, Bootloader.writeSpecPerFrameAckGo]
    by_cases h : chunk.length = 0
    · simp [h]
    · simp only [if_neg h]
      have h256 : 256 * j + 256 = 256 * (j + 1) := by ring
      rw [h256, ih (j + 1), Bootloader.specBlockPerFrameAck]
      simp [List.append_assoc]

/-- C1 counterexample: the write loop awaits an ack after every data
frame, and addresses block `j` at `start + 256 * j` rather than at the
cumulative byte offset.  On the single 9-byte block starting at 0 the
code's trace interleaves an ack between the two data frames, and on two
short reads `[1]`, `[2]` the second header carries address 0x100, so in
both cases the trace differs from the one the claim describes
(`writeSpecClaimed`, transcribed from the claim's words). -/
theorem write_trace_counterexample :
    Bootloader.write 0 [[1, 2, 3, 4, 5, 6, 7, 8, 9]] ≠
      Bootloader.writeSpecClaimed 0 [[1, 2, 3, 4, 5, 6, 7, 8, 9]] ∧
    Bootloader.write 0 [[1], [2]] ≠
      Bootloader.writeSpecClaimed 0 [[1], [2]] := by
  decide

set_option maxRecDepth 100000 in
/-- C1 amended: `write(start_address, data_source)` consumes the stream
in blocks of at most 256 bytes, terminating the first time a read
yields zero bytes.  For each non-empty block `j` (0-based) it sends one
5-byte header on 0x31 — the big-endian `u32` address
`start_address + 256 * j` (the cumulative offset when every non-final
read fills the 256-byte buffer) followed by `block_length - 1` — and
awaits one ack; it then sends the block's bytes in consecutive frames
of at most 8 bytes on 0x04, awaiting one ack on 0x31 after every data
frame, and awaits one further ack after the final data frame of the
block.  A 300-byte input at start 0x08000000 thus yields two headers
(lengths 256 and 44 at addresses 0x08000000 and 0x08000100) followed by
32 and 6 data frames, with 34 and 8 acks in the respective blocks. -/
theorem write_per_frame_ack_trace :
    (∀ start reads,
       Bootloader.write start reads =
         Bootloader.writeSpecPerFrameAck start reads) ∧
    Bootloader.write 0x08000000
        [List.replicate 256 0xAB, List.replicate 44 0xCD] =
      Bootloader.specBlockPerFrameAck 0x08000000 (List.replicate 256 0xAB) ++
      Bootloader.specBlockPerFrameAck 0x08000100 (List.replicate 44 0xCD) ∧
    (Bootloader.write 0x08000000
        [List.replicate 256 0xAB, List.replicate 44 0xCD]).filter
      Event.isWriteHeader =
      [Event.send 0x31 [0x08, 0x00, 0x00, 0x00, 0xFF],
       Event.send 0x31 [0x08, 0x00, 0x01, 0x00, 0x2B]] ∧
    ((Bootloader.specBlockPerFrameAck 0x08000000
        (List.replicate 256 0xAB)).filter Event.isDataFrame).length = 32 ∧
    ((Bootloader.specBlockPerFrameAck 0x08000100
        (List.replicate 44 0xCD)).filter Event.isDataFrame).length = 6 ∧
    ((Bootloader.specBlockPerFrameAck 0x08000000
        (List.replicate 256 0xAB)).filter Event.isAckAwait).length = 34 ∧
    ((Bootloader.specBlockPerFrameAck 0x08000100
        (List.replicate 44 0xCD)).filter Event.isAckAwait).length = 8 := by
  refine ⟨?_, by decide, by decide, by decide, by decide, by decide, by decide⟩
  intro start reads
  simpa using writeLoop_eq_specGo start reads 0
